import Mathlib

/-!
Shallow embedding of the `@digitalbazaar/ed25519-verification-key-2020`
library (the `Ed25519VerificationKey2020` key-pair class, its multibase /
multicodec codec, its byte validators, and the node / browser Ed25519
backends), together with theorems settling the frozen claims about the
natural-language specification of the repository.

Bytes are modelled as `List Nat` (each entry a byte value `< 256` where it
matters).  Fallible JavaScript code (functions that may `throw`) is
modelled with `Except JsError`.  JavaScript values that may be `undefined`
are modelled with `Option`; the export record, whose properties can hold
`undefined`, uses an explicit `JsVal` type.
-/

namespace EdVK2020

/-- Raw byte sequences (JS `Uint8Array`), as lists of naturals. -/
abbrev Bytes := List Nat

/-- Decidable equality for `Except`, used to evaluate the embedded
fallible operations on concrete inputs. -/
instance {ε α : Type} [DecidableEq ε] [DecidableEq α] :
    DecidableEq (Except ε α) := fun x y =>
  match x, y with
  | .ok a, .ok b =>
    if h : a = b then .isTrue (by rw [h])
    else .isFalse (by intro he; cases he; exact h rfl)
  | .error a, .error b =>
    if h : a = b then .isTrue (by rw [h])
    else .isFalse (by intro he; cases he; exact h rfl)
  | .ok _, .error _ => .isFalse (by intro he; cases he)
  | .error _, .ok _ => .isFalse (by intro he; cases he)

/-- JavaScript error values thrown or returned by the library. -/
inductive JsError where
  /-- a `TypeError` -/
  | typeError (msg : String)
  /-- a plain `Error` -/
  | error (msg : String)
  /-- an `Error` with `name = 'DataError'` and an optional machine code -/
  | dataError (msg : String) (code : Option String)
deriving DecidableEq

/-- JavaScript values appearing in exported plain records and as the
`verifyFingerprint` argument. -/
inductive JsVal where
  /-- a string value -/
  | str (s : String)
  /-- the `undefined` value -/
  | undef
  /-- the `null` value -/
  | jsnull
  /-- a number (used only as a non-string candidate input) -/
  | num (n : Nat)
deriving DecidableEq

/-! ## base58-btc codec (the `base58-universal` collaborator)

`base58-universal` implements the bitcoin base58 alphabet.  `decode`
returns `undefined` (here: `none`) on input containing a character outside
the alphabet; `encode` maps leading zero bytes to leading `'1'`
characters and the remaining big-endian number to base-58 digits. -/

/-- The bitcoin base58 alphabet used by `base58-universal`. -/
def b58Alphabet : List Char :=
  "123456789ABCDEFGHJKLMNPQRSTUVWXYZabcdefghijkmnopqrstuvwxyz".toList

/-- Value of a base58 character, `none` when outside the alphabet. -/
def b58CharVal (c : Char) : Option Nat :=
  List.findIdx? (fun a => a == c) b58Alphabet

/-- Big-endian byte value of a byte list. -/
def natFromBytesBE (bs : Bytes) : Nat :=
  bs.foldl (fun a b => a * 256 + b) 0

/-- Fuelled big-endian base-`b` digit expansion (the fuel only bounds the
recursion; `natToBytesBE`/`natToB58BE` always supply enough). -/
def natToDigitsBEAux (b : Nat) : Nat → Nat → List Nat
  | _, 0 => []
  | 0, _ + 1 => []
  | f + 1, n + 1 =>
    natToDigitsBEAux b f ((n + 1) / b) ++ [(n + 1) % b]

/-- Minimal big-endian base-256 digits of `n` (empty for `0`). -/
def natToBytesBE (n : Nat) : Bytes := natToDigitsBEAux 256 n n

/-- Minimal big-endian base-58 digits of `n` (empty for `0`). -/
def natToB58BE (n : Nat) : List Nat := natToDigitsBEAux 58 n n

/-- base58-btc decoding of a character list: `none` on any character
outside the alphabet, otherwise leading `'1'`s become leading zero bytes
and the whole string is read as a base-58 number. -/
def b58decodeList (cs : List Char) : Option Bytes :=
  match cs.mapM b58CharVal with
  | none => none
  | some vals =>
    let zeros := (cs.takeWhile (fun c => c == '1')).length
    let num := vals.foldl (fun a v => a * 58 + v) 0
    some (List.replicate zeros 0 ++ natToBytesBE num)

/-- base58-btc encoding of a byte list. -/
def b58encodeList (bs : Bytes) : List Char :=
  let zeros := (bs.takeWhile (fun b => b == 0)).length
  let num := natFromBytesBE bs
  List.replicate zeros '1' ++ (natToB58BE num).map (fun d => b58Alphabet.getD d '1')

/-- `base58btc.decode` on a string. -/
def b58decode (s : String) : Option Bytes := b58decodeList s.toList

/-- `base58btc.encode` to a string. -/
def b58encode (bs : Bytes) : String := String.mk (b58encodeList bs)

/-- JS `s[0]`: first character of a string, `undefined` (`none`) when empty. -/
def strHead? (s : String) : Option Char := s.toList.head?

/-- JS `s.substr(1)` / `s.slice(1)`: everything after the first character. -/
def strTail (s : String) : String := String.mk (s.toList.drop 1)

/-- JS truthiness of an optional string: `undefined` and `''` are falsy. -/
def jsStrTruthy : Option String → Bool
  | none => false
  | some s => !s.isEmpty

/-! ## Multicodec constants and helpers (`Ed25519VerificationKey2020.js`) -/

/-- The key-suite identifier constant `SUITE_ID`. -/
def SUITE_ID : String := "Ed25519VerificationKey2020"

/-- `SUITE_CONTEXT` class property. -/
def SUITE_CONTEXT : String := "https://w3id.org/security/suites/ed25519-2020/v1"

/-- multicodec ed25519-pub header as varint: `[0xed, 0x01]`. -/
def MULTICODEC_ED25519_PUB_HEADER : Bytes := [0xed, 0x01]

/-- multicodec ed25519-priv header as varint: `[0x80, 0x26]`. -/
def MULTICODEC_ED25519_PRIV_HEADER : Bytes := [0x80, 0x26]

/-- JS `keyBytes[i] === v`: indexing out of range yields `undefined`,
which compares unequal to every byte value. -/
def jsIndexEq (l : Bytes) (i v : Nat) : Bool :=
  match l.get? i with
  | some b => b == v
  | none => false

/-- `expectedHeader.every((val, i) => keyBytes[i] === val)`, iterating the
expected header with its index. -/
def everyIdx (keyBytes : Bytes) : Bytes → Nat → Bool
  | [], _ => true
  | v :: rest, i => jsIndexEq keyBytes i v && everyIdx keyBytes rest (i + 1)

/-- Check that the decoded key starts byte-for-byte with the expected
multicodec header. -/
def headerMatches (expectedHeader keyBytes : Bytes) : Bool :=
  everyIdx keyBytes expectedHeader 0

/-- `_isValidKeyHeader(multibaseKey, expectedHeader)`: `false` when the
multibase prefix character is wrong, otherwise base58-decodes the rest and
compares the leading bytes with the expected header.  A decode failure
makes `base58btc.decode` return `undefined` and the subsequent indexed
access throw, so it surfaces as an error here. -/
def isValidKeyHeader (multibaseKey : String) (expectedHeader : Bytes) :
    Except JsError Bool :=
  if strHead? multibaseKey ≠ some 'z' then .ok false
  else
    match b58decode (strTail multibaseKey) with
    | none => .error (.typeError "Cannot read properties of undefined.")
    | some keyBytes => .ok (headerMatches expectedHeader keyBytes)

/-- `_encodeMbKey(header, key)`: multibase prefix `'z'` followed by the
base58-btc encoding of `header ++ key`. -/
def encodeMbKey (header key : Bytes) : String :=
  String.mk ('z' :: b58encodeList (header ++ key))

/-! ## Key Pair Entity (`src/unnamed/part_005`) -/

/-- The constructor's options hashmap.  The `id`, `controller` and
`revoked` fields are consumed by the `LDKeyPair` base-class constructor,
which stores them as plain fields. -/
structure KeyPairOptions where
  id : Option String := none
  controller : Option String := none
  revoked : Option String := none
  publicKeyMultibase : Option String := none
  privateKeyMultibase : Option String := none
deriving DecidableEq

/-- A constructed `Ed25519VerificationKey2020` instance (its plain data
fields after the constructor has returned). -/
structure KeyInstance where
  id : Option String
  controller : Option String
  revoked : Option String
  type : String
  publicKeyMultibase : String
  privateKeyMultibase : Option String
deriving DecidableEq

/-- The `_publicKeyBuffer` getter: `undefined` when `publicKeyMultibase`
is falsy; otherwise base58-decode the string after the multibase prefix
and strip the 2-byte multicodec header.  A decode failure makes the
subsequent `.slice` call throw. -/
def publicKeyBufferE (inst : KeyInstance) : Except JsError (Option Bytes) :=
  if inst.publicKeyMultibase.isEmpty then .ok none
  else
    match b58decode (strTail inst.publicKeyMultibase) with
    | none => .error (.typeError "Cannot read properties of undefined.")
    | some bytes => .ok (some (bytes.drop MULTICODEC_ED25519_PUB_HEADER.length))

/-- The `_privateKeyBuffer` getter, analogous to `_publicKeyBuffer`. -/
def privateKeyBufferE (inst : KeyInstance) : Except JsError (Option Bytes) :=
  match inst.privateKeyMultibase with
  | none => .ok none
  | some s =>
    if s.isEmpty then .ok none
    else
      match b58decode (strTail s) with
      | none => .error (.typeError "Cannot read properties of undefined.")
      | some bytes => .ok (some (bytes.drop MULTICODEC_ED25519_PRIV_HEADER.length))

/-- Validation of the optional `privateKeyMultibase` constructor argument:
when the field is truthy, its multicodec header must be the ed25519-priv
header.  Mirrors the `privateKeyMultibase && !_isValidKeyHeader(...)`
guard; no length check is performed on the decoded private key. -/
def checkPrivArg (privateKeyMultibase : Option String) : Except JsError Unit :=
  if jsStrTruthy privateKeyMultibase then
    match isValidKeyHeader (privateKeyMultibase.getD "")
        MULTICODEC_ED25519_PRIV_HEADER with
    | .error e => .error e
    | .ok false => .error (.error "privateKeyMultibase has invalid header bytes.")
    | .ok true => .ok ()
  else .ok ()

/-- Field assignment performed by the constructor after validation: the
two multibase strings are stored verbatim and, when a `controller` is
present but no `id`, the `id` is derived as
`controller + '#' + fingerprint()` (the fingerprint being the stored
public multibase string). -/
def mkInstance (opts : KeyPairOptions) (pub : String) : KeyInstance :=
  if jsStrTruthy opts.controller && !jsStrTruthy opts.id then
    { id := some (opts.controller.getD "" ++ "#" ++ pub),
      controller := opts.controller, revoked := opts.revoked,
      type := SUITE_ID, publicKeyMultibase := pub,
      privateKeyMultibase := opts.privateKeyMultibase }
  else
    { id := opts.id, controller := opts.controller, revoked := opts.revoked,
      type := SUITE_ID, publicKeyMultibase := pub,
      privateKeyMultibase := opts.privateKeyMultibase }

/-- The `Ed25519VerificationKey2020` constructor of the current version
(`src/unnamed/part_005`): requires a truthy `publicKeyMultibase`, checks
both multicodec headers, stores both strings verbatim, derives `id` from
`controller` and the fingerprint when needed, and finally checks that the
decoded public key is exactly 32 bytes (`checkKeyBytes`). -/
def constructorP5 (opts : KeyPairOptions) : Except JsError KeyInstance :=
  match opts.publicKeyMultibase with
  | none => .error (.typeError "The publicKeyMultibase property is required.")
  | some pub =>
    if pub.isEmpty then
      .error (.typeError "The publicKeyMultibase property is required.")
    else
      match isValidKeyHeader pub MULTICODEC_ED25519_PUB_HEADER with
      | .error e => .error e
      | .ok false => .error (.error "publicKeyMultibase has invalid header bytes.")
      | .ok true =>
        match checkPrivArg opts.privateKeyMultibase with
        | .error e => .error e
        | .ok _ =>
          let inst := mkInstance opts pub
          match publicKeyBufferE inst with
          | .error e => .error e
          | .ok none => .error (.typeError "bytes must be a Uint8Array.")
          | .ok (some bytes) =>
            if bytes.length = 32 then .ok inst
            else .error (.dataError "bytes must be a 32-byte Uint8Array."
              (some "invalidPublicKeyLength"))

/-- `fingerprint()`: returns `publicKeyMultibase` unchanged. -/
def fingerprint (inst : KeyInstance) : String := inst.publicKeyMultibase

/-- Result record of `verifyFingerprint`: `valid` plus the optional
`error` property (absent on success). -/
structure FingerprintResult where
  valid : Bool
  error : Option JsError
deriving DecidableEq

/-- `_isEqualBuffer(buf1, buf2)`: the explicitly non-constant-time
byte-for-byte loop, which computes exactly structural equality of the two
byte sequences. -/
def isEqualBuffer (buf1 buf2 : Bytes) : Bool := buf1 == buf2

/-- `verifyFingerprint({fingerprint})`: checks the candidate is a string
with the `'z'` multibase prefix, decodes it defensively (a failure is
caught and reported as `valid: false` with the caught error), then
compares the two multicodec header bytes and the remaining bytes against
`_publicKeyBuffer`.  The `_publicKeyBuffer` access happens outside the
`try` block, so a decode failure of the instance's own string would
propagate as a thrown error. -/
def verifyFingerprint (inst : KeyInstance) (candidate : JsVal) :
    Except JsError FingerprintResult :=
  match candidate with
  | .str s =>
    if strHead? s ≠ some 'z' then
      .ok ⟨false, some (.error "fingerprint must be a multibase encoded string.")⟩
    else
      match b58decode (strTail s) with
      | none =>
        .ok ⟨false, some (.typeError "Invalid encoding of fingerprint.")⟩
      | some fingerprintBuffer =>
        match publicKeyBufferE inst with
        | .error e => .error e
        | .ok none => .error (.typeError "Cannot read length of undefined.")
        | .ok (some publicKeyBuffer) =>
          if jsIndexEq fingerprintBuffer 0 0xed &&
              jsIndexEq fingerprintBuffer 1 0x01 &&
              isEqualBuffer publicKeyBuffer (fingerprintBuffer.drop 2) then
            .ok ⟨true, none⟩
          else .ok ⟨false, some (.error "The fingerprint does not match the public key.")⟩
  | _ =>
    .ok ⟨false, some (.error "fingerprint must be a multibase encoded string.")⟩

/-- Flags accepted by `export()`. -/
structure ExportFlags where
  publicKey : Bool := false
  privateKey : Bool := false
  includeContext : Bool := false
deriving DecidableEq

/-- An `Option String` written into a JS record: `undefined` when absent. -/
def jsovToVal : Option String → JsVal
  | none => .undef
  | some s => .str s

/-- `export({publicKey, privateKey, includeContext})`: throws when neither
key flag is set; otherwise builds the plain record in source order.  The
`id` property is assigned unconditionally (its value may be `undefined`),
`@context`/`publicKeyMultibase`/`privateKeyMultibase` follow their flags,
and `controller`/`revoked` are included only when truthy. -/
def exportKey (inst : KeyInstance) (flags : ExportFlags) :
    Except JsError (List (String × JsVal)) :=
  if !(flags.publicKey || flags.privateKey) then
    .error (.typeError "Export requires specifying either publicKey or privateKey.")
  else
    .ok ([("id", jsovToVal inst.id), ("type", .str inst.type)]
      ++ (if flags.includeContext then [("@context", .str SUITE_CONTEXT)] else [])
      ++ (if jsStrTruthy inst.controller then
            [("controller", .str (inst.controller.getD ""))] else [])
      ++ (if flags.publicKey then
            [("publicKeyMultibase", .str inst.publicKeyMultibase)] else [])
      ++ (if flags.privateKey then
            [("privateKeyMultibase", jsovToVal inst.privateKeyMultibase)] else [])
      ++ (if jsStrTruthy inst.revoked then
            [("revoked", .str (inst.revoked.getD ""))] else []))

/-! ## signer() in the two versions present in the repository -/

/-- `signer()` of the current version (`src/unnamed/part_005`): reads
`_privateKeyBuffer` (which may be `undefined`) and returns the signer
object capturing that buffer and the key id.  It does not throw when no
private key is present. -/
def signerCallP5 (inst : KeyInstance) :
    Except JsError (Option Bytes × Option String) :=
  match privateKeyBufferE inst with
  | .error e => .error e
  | .ok privateKeyBuffer => .ok (privateKeyBuffer, inst.id)

/-- `signer()` of the older version (`src/lib/Ed25519VerificationKey2020.js`):
throws synchronously when `_privateKeyBuffer` is falsy. -/
def signerCallLib (inst : KeyInstance) :
    Except JsError (Bytes × Option String) :=
  match privateKeyBufferE inst with
  | .error e => .error e
  | .ok none => .error (.error "No private key to sign with.")
  | .ok (some privateKeyBuffer) => .ok (privateKeyBuffer, inst.id)

/-! ## DER / primitive adapter (`src/lib/ed25519.js`)

The raw Ed25519 arithmetic lives in external collaborators (`node:crypto`
for the node backend, `@stablelib/ed25519` for the browser backend) and
is out of the repository's scope (spec §1, §6).  Both are abstracted by
`EdPrimitive`: a deterministic public-key derivation from a 32-byte seed,
signing from a seed, and verification (spec §4.2 interface). -/

/-- Abstract deterministic Ed25519 primitive backing both backends. -/
structure EdPrimitive where
  /-- derive the 32-byte public key from a 32-byte seed -/
  derivePub : Bytes → Bytes
  /-- RFC 8032 signing: the seed is the scalar source -/
  edSign : Bytes → Bytes → Bytes
  /-- signature verification -/
  edVerify : Bytes → Bytes → Bytes → Bool

/-- An `EdPrimitive` conforming to the spec §4.2 boundary: public keys
are 32 bytes and a signature produced from a seed verifies under the
public key derived from that seed. -/
def EdPrimitive.Conforming (P : EdPrimitive) : Prop :=
  (∀ seed : Bytes, seed.length = 32 → (P.derivePub seed).length = 32) ∧
  (∀ seed data : Bytes, P.edVerify (P.derivePub seed) data (P.edSign seed data) = true)

/-- `DER_PRIVATE_KEY_PREFIX`: PKCS#8 DER framing for an Ed25519 seed. -/
def derPrivateKeyHeader : Bytes :=
  [0x30, 0x2e, 0x02, 0x01, 0x00, 0x30, 0x05, 0x06, 0x03, 0x2b, 0x65, 0x70,
   0x04, 0x22, 0x04, 0x20]

/-- `DER_PUBLIC_KEY_PREFIX`: SPKI DER framing for an Ed25519 public key. -/
def derPublicKeyHeader : Bytes :=
  [0x30, 0x2a, 0x30, 0x05, 0x06, 0x03, 0x2b, 0x65, 0x70, 0x03, 0x21, 0x00]

/-- `assertKeyBytes({bytes, expectedLength, code})` from
`src/lib/validators.js` (named `checkKeyBytes` in the latest version):
a `DataError`-kind failure when the length differs from the expected one.
The byte payload is never interpolated into the message. -/
def assertKeyBytes (bytes : Bytes) (expectedLength : Nat) (code : Option String) :
    Except JsError Unit :=
  if bytes.length = expectedLength then .ok ()
  else .error (.dataError "bytes must be a Uint8Array of the expected length."
    code)

/-- `privateKeyDerEncode({seedBytes})`: assert 32 bytes, then prepend the
PKCS#8 DER framing. -/
def privateKeyDerEncodeFromSeed (seedBytes : Bytes) : Except JsError Bytes :=
  match assertKeyBytes seedBytes 32 none with
  | .error e => .error e
  | .ok _ => .ok (derPrivateKeyHeader ++ seedBytes)

/-- `privateKeyDerEncode({privateKeyBytes})`: assert 64 bytes, then wrap
only the first 32 bytes (the seed) in the PKCS#8 DER framing. -/
def privateKeyDerEncodeFromPrivateKey (privateKeyBytes : Bytes) :
    Except JsError Bytes :=
  match assertKeyBytes privateKeyBytes 64 none with
  | .error e => .error e
  | .ok _ => .ok (derPrivateKeyHeader ++ privateKeyBytes.take 32)

/-- `publicKeyDerEncode({publicKeyBytes})`: assert 32 bytes, then prepend
the SPKI DER framing. -/
def publicKeyDerEncode (publicKeyBytes : Bytes) : Except JsError Bytes :=
  match assertKeyBytes publicKeyBytes 32 (some "invalidPublicKeyLength") with
  | .error e => .error e
  | .ok _ => .ok (derPublicKeyHeader ++ publicKeyBytes)

/-- `getKeyMaterial(buffer)`: strip whichever DER framing the buffer
starts with; throw when it matches neither. -/
def getKeyMaterial (buffer : Bytes) : Except JsError Bytes :=
  if derPublicKeyHeader.isPrefixOf buffer then
    .ok (buffer.drop derPublicKeyHeader.length)
  else if derPrivateKeyHeader.isPrefixOf buffer then
    .ok (buffer.drop derPrivateKeyHeader.length)
  else .error (.error "Expected Buffer to match Ed25519 Public or Private Prefix")

/-- Modelled from the spec: `node:crypto`'s
`createPrivateKey` / `createPublicKey` / `export({format: der, type: spki})`
pipeline is an external collaborator (spec §1, §6).  Exporting the public
key of a PKCS#8-framed seed yields the SPKI DER framing followed by the
32 raw public-key bytes derived deterministically from the seed. -/
def nodeSpkiExportOfPkcs8 (P : EdPrimitive) (derPkcs8 : Bytes) : Bytes :=
  derPublicKeyHeader ++ P.derivePub (derPkcs8.drop derPrivateKeyHeader.length)

/-- A `{publicKey, secretKey}` pair of raw byte buffers. -/
structure KeyPairBytes where
  publicKey : Bytes
  secretKey : Bytes
deriving DecidableEq

/-- Node backend `generateKeyPairFromSeed(seedBytes)`: DER-encode the
seed, derive and export the public key, strip the DER framing, and return
`publicKey` plus `secretKey = seedBytes || publicKey` (`Buffer.concat`). -/
def generateKeyPairFromSeed (P : EdPrimitive) (seedBytes : Bytes) :
    Except JsError KeyPairBytes :=
  match privateKeyDerEncodeFromSeed seedBytes with
  | .error e => .error e
  | .ok der =>
    match getKeyMaterial (nodeSpkiExportOfPkcs8 P der) with
    | .error e => .error e
    | .ok publicKeyBytes => .ok ⟨publicKeyBytes, seedBytes ++ publicKeyBytes⟩

/-- Node backend `sign(privateKeyBytes, data)`: DER-encode the 64-byte
private key (keeping only its first 32 bytes, the seed) and sign.
Modelled from the spec: `node:crypto`'s `sign(null, data, key)` applies
RFC 8032 signing with the seed carried inside the PKCS#8 framing. -/
def nodeSign (P : EdPrimitive) (privateKeyBytes data : Bytes) :
    Except JsError Bytes :=
  match privateKeyDerEncodeFromPrivateKey privateKeyBytes with
  | .error e => .error e
  | .ok der => .ok (P.edSign (der.drop derPrivateKeyHeader.length) data)

/-- Invocation of the `sign` closure returned by the current version's
`signer()`: the captured `_privateKeyBuffer` was `undefined`, so the call
throws `'A private key is not available for signing.'`; otherwise it
delegates verbatim to `ed25519.sign`. -/
def signSignerClosure (P : EdPrimitive) (privateKeyBuffer : Option Bytes)
    (data : Bytes) : Except JsError Bytes :=
  match privateKeyBuffer with
  | none => .error (.error "A private key is not available for signing.")
  | some pkb => nodeSign P pkb data

/-- Node backend `verify(publicKeyBytes, data, signature)`: DER-encode the
32-byte public key and verify.  Modelled from the spec: `node:crypto`'s
`verify` applies RFC 8032 verification with the key inside the SPKI
framing and returns a boolean. -/
def nodeVerify (P : EdPrimitive) (publicKeyBytes data signature : Bytes) :
    Except JsError Bool :=
  match publicKeyDerEncode publicKeyBytes with
  | .error e => .error e
  | .ok der => .ok (P.edVerify (der.drop derPublicKeyHeader.length) data signature)

/-- Modelled from the spec: the browser backend (`lib/ed25519-browser.js`)
re-exports `@stablelib/ed25519`, whose `generateKeyPairFromSeed` returns
the derived 32-byte public key and the 64-byte secret key packed as
`seed || publicKey` (spec §3 PrivateKeyBytes and §4.2). -/
def browserGenerateKeyPairFromSeed (P : EdPrimitive) (seed : Bytes) :
    KeyPairBytes :=
  ⟨P.derivePub seed, seed ++ P.derivePub seed⟩

/-- Modelled from the spec: `@stablelib/ed25519`'s `sign(secretKey, data)`
uses only the first 32 bytes (the seed) of the 64-byte secret key as the
signing scalar source (spec §4.2). -/
def browserSign (P : EdPrimitive) (secretKey data : Bytes) : Bytes :=
  P.edSign (secretKey.take 32) data

/-- Modelled from the spec: `@stablelib/ed25519`'s
`verify(publicKey, data, signature)` returns a boolean and never throws
on a mismatched signature (spec §4.2). -/
def browserVerify (P : EdPrimitive) (publicKey data signature : Bytes) : Bool :=
  P.edVerify publicKey data signature

/-! ## `generate()` of the Key Pair Entity (`src/unnamed/part_005`) -/

/-- The JS object-spread merge
`{publicKeyMultibase, privateKeyMultibase, ...keyPairOptions}`: a present
property of `keyPairOptions` overwrites the freshly generated field of
the literal. -/
def spreadMerge (base opts : KeyPairOptions) : KeyPairOptions :=
  { id := opts.id <|> base.id,
    controller := opts.controller <|> base.controller,
    revoked := opts.revoked <|> base.revoked,
    publicKeyMultibase := opts.publicKeyMultibase <|> base.publicKeyMultibase,
    privateKeyMultibase := opts.privateKeyMultibase <|> base.privateKeyMultibase }

/-- `generate({seed, ...keyPairOptions})`: derive the key material from
the given seed (or from `entropy`, the 32 random bytes drawn by
`generateKeyPair` when no seed is supplied), multibase-encode both keys
with their multicodec headers, and construct the instance from the
generated encodings spread-overridden by `keyPairOptions`. -/
def generateP5 (P : EdPrimitive) (seed : Option Bytes) (entropy : Bytes)
    (keyPairOptions : KeyPairOptions) : Except JsError KeyInstance :=
  match generateKeyPairFromSeed P (seed.getD entropy) with
  | .error e => .error e
  | .ok keyObject =>
    constructorP5 (spreadMerge
      { publicKeyMultibase :=
          some (encodeMbKey MULTICODEC_ED25519_PUB_HEADER keyObject.publicKey),
        privateKeyMultibase :=
          some (encodeMbKey MULTICODEC_ED25519_PRIV_HEADER keyObject.secretKey) }
      keyPairOptions)

/-! ## Concrete inputs used by witnesses and counterexamples -/

/-- A well-formed public multibase string: ed25519-pub header followed by
32 bytes of value 7. -/
def pubCX : String := encodeMbKey MULTICODEC_ED25519_PUB_HEADER (List.replicate 32 7)

/-- A malformed private multibase string: correct ed25519-priv header but
only a 10-byte payload. -/
def privShortCX : String :=
  encodeMbKey MULTICODEC_ED25519_PRIV_HEADER (List.replicate 10 1)

/-- A well-formed private multibase string: ed25519-priv header followed
by a 64-byte payload. -/
def privOkCX : String :=
  encodeMbKey MULTICODEC_ED25519_PRIV_HEADER (List.replicate 64 2)

/-- Construction options carrying only the public key. -/
def optsPubOnly : KeyPairOptions := { publicKeyMultibase := some pubCX }

/-- Construction options whose private string has a valid header but a
10-byte payload instead of 64. -/
def optsBadPriv : KeyPairOptions :=
  { publicKeyMultibase := some pubCX, privateKeyMultibase := some privShortCX }

/-- Options passed to `generate` that carry caller-supplied multibase
strings, overriding the freshly generated encodings. -/
def optsOverride : KeyPairOptions :=
  { publicKeyMultibase := some pubCX, privateKeyMultibase := some privOkCX }

/-- The instance produced by the constructor from `optsPubOnly`. -/
def instPubOnlyCX : KeyInstance :=
  { id := none, controller := none, revoked := none, type := SUITE_ID,
    publicKeyMultibase := pubCX, privateKeyMultibase := none }

/-- The instance produced by `generate` under `optsOverride`. -/
def instOverrideCX : KeyInstance :=
  { id := none, controller := none, revoked := none, type := SUITE_ID,
    publicKeyMultibase := pubCX, privateKeyMultibase := some privOkCX }

/-- The record produced by exporting `instPubOnlyCX` with both key flags:
the `id` and `privateKeyMultibase` properties are present with value
`undefined`. -/
def exportRecCX : List (String × JsVal) :=
  [("id", .undef), ("type", .str SUITE_ID),
   ("publicKeyMultibase", .str pubCX), ("privateKeyMultibase", .undef)]

/-- A trivially conforming concrete primitive used to witness the
theorems quantified over an abstract `EdPrimitive`. -/
def P0 : EdPrimitive :=
  { derivePub := fun _ => List.replicate 32 0,
    edSign := fun _ _ => List.replicate 64 0,
    edVerify := fun _ _ _ => true }

/-! ## Helper lemmas about the constructor -/

/-- The constructor's field assignment never alters the stored public
multibase string. -/
theorem mkInstance_publicKeyMultibase (opts : KeyPairOptions) (pub : String) :
    (mkInstance opts pub).publicKeyMultibase = pub := by
  unfold mkInstance; split <;> rfl

/-- The constructor's field assignment never alters the stored private
multibase string. -/
theorem mkInstance_privateKeyMultibase (opts : KeyPairOptions) (pub : String) :
    (mkInstance opts pub).privateKeyMultibase = opts.privateKeyMultibase := by
  unfold mkInstance; split <;> rfl

/-- The constructor's field assignment keeps the controller field. -/
theorem mkInstance_controller (opts : KeyPairOptions) (pub : String) :
    (mkInstance opts pub).controller = opts.controller := by
  unfold mkInstance; split <;> rfl

/-- The constructor's field assignment keeps the revoked field. -/
theorem mkInstance_revoked (opts : KeyPairOptions) (pub : String) :
    (mkInstance opts pub).revoked = opts.revoked := by
  unfold mkInstance; split <;> rfl

/-- Inversion of a successful header validation: the string starts with
`'z'`, its tail base58-decodes, and the decoded bytes carry the expected
header. -/
theorem isValidKeyHeader_ok_true {s : String} {hdr : Bytes}
    (h : isValidKeyHeader s hdr = .ok true) :
    strHead? s = some 'z' ∧
      ∃ bytes, b58decode (strTail s) = some bytes ∧ headerMatches hdr bytes = true := by
  unfold isValidKeyHeader at h
  split at h
  · exact absurd h (by simp)
  · rename_i hz
    rw [ne_eq, not_not] at hz
    refine ⟨hz, ?_⟩
    split at h
    · exact absurd h (by simp)
    · rename_i bytes hdec
      exact ⟨bytes, hdec, by simpa using h⟩

/-- The `_publicKeyBuffer` getter on an instance whose stored public
string is nonempty and decodes: the decoded bytes with the 2-byte
multicodec header stripped. -/
theorem publicKeyBufferE_eq {inst : KeyInstance} {bytes : Bytes}
    (hempty : inst.publicKeyMultibase.isEmpty = false)
    (hdec : b58decode (strTail inst.publicKeyMultibase) = some bytes) :
    publicKeyBufferE inst = .ok (some (bytes.drop 2)) := by
  rw [publicKeyBufferE, hempty]
  simp [hdec, MULTICODEC_ED25519_PUB_HEADER]

/-- Facts available whenever the current constructor succeeds: the public
string is stored verbatim, starts with `'z'`, decodes, carries the
ed25519-pub header, its payload is 32 bytes, the private string is stored
verbatim, its header validation passed, and the instance is exactly the
one assembled by the field assignment. -/
theorem ctor_ok_elim {opts : KeyPairOptions} {inst : KeyInstance}
    (h : constructorP5 opts = .ok inst) :
    ∃ pub bytes,
      opts.publicKeyMultibase = some pub ∧
      pub.isEmpty = false ∧
      strHead? pub = some 'z' ∧
      b58decode (strTail pub) = some bytes ∧
      headerMatches MULTICODEC_ED25519_PUB_HEADER bytes = true ∧
      (bytes.drop 2).length = 32 ∧
      inst = mkInstance opts pub ∧
      checkPrivArg opts.privateKeyMultibase = .ok () := by
  unfold constructorP5 at h
  split at h
  · exact absurd h (by simp)
  · rename_i pub hpub
    refine ⟨pub, ?_⟩
    split at h
    · exact absurd h (by simp)
    · rename_i hempty
      rw [Bool.not_eq_true] at hempty
      split at h
      · exact absurd h (by simp)
      · exact absurd h (by simp)
      · rename_i hvalid
        obtain ⟨hz, bytes, hdec, hm⟩ := isValidKeyHeader_ok_true hvalid
        refine ⟨bytes, hpub, hempty, hz, hdec, ?_⟩
        split at h
        · exact absurd h (by simp)
        · rename_i u hpriv
          simp only at h
          have hbuf : publicKeyBufferE (mkInstance opts pub) =
              .ok (some (bytes.drop 2)) :=
            publicKeyBufferE_eq
              (by rw [mkInstance_publicKeyMultibase]; exact hempty)
              (by rw [mkInstance_publicKeyMultibase]; exact hdec)
          rw [hbuf] at h
          simp only at h
          split at h
          · rename_i hlen
            cases h
            exact ⟨hm, hlen, rfl, by cases u; exact hpriv⟩
          · exact absurd h (by simp)

/-- The ed25519-pub header check, split into its two indexed byte
comparisons. -/
theorem headerMatches_pub_elim {bytes : Bytes}
    (hm : headerMatches MULTICODEC_ED25519_PUB_HEADER bytes = true) :
    jsIndexEq bytes 0 0xed = true ∧ jsIndexEq bytes 1 0x01 = true := by
  simp only [headerMatches, MULTICODEC_ED25519_PUB_HEADER, everyIdx,
    Bool.and_eq_true, and_true] at hm
  exact hm

/-- Claim C5: for every validly constructed key pair instance `k`,
`k.verifyFingerprint({fingerprint: k.fingerprint()})` returns
`{valid: true}` with no error field (and without throwing). -/
theorem claim_C5_fingerprint_roundtrip {opts : KeyPairOptions}
    {inst : KeyInstance} (h : constructorP5 opts = .ok inst) :
    verifyFingerprint inst (.str (fingerprint inst)) = .ok ⟨true, none⟩ := by
  obtain ⟨pub, bytes, hpub, hempty, hz, hdec, hm, hlen, hinst, hpriv⟩ :=
    ctor_ok_elim h
  obtain ⟨h0, h1⟩ := headerMatches_pub_elim hm
  subst hinst
  rw [fingerprint, mkInstance_publicKeyMultibase, verifyFingerprint]
  rw [if_neg (by simp [hz])]
  rw [hdec]
  rw [publicKeyBufferE_eq
    (by rw [mkInstance_publicKeyMultibase]; exact hempty)
    (by rw [mkInstance_publicKeyMultibase]; exact hdec)]
  simp only
  rw [if_pos (by simp [h0, h1, isEqualBuffer])]

/-- Witness for C5 at a concrete validly constructed instance. -/
theorem claim_C5_witness :
    constructorP5 optsPubOnly = .ok instPubOnlyCX ∧
      verifyFingerprint instPubOnlyCX (.str (fingerprint instPubOnlyCX)) =
        .ok ⟨true, none⟩ :=
  ⟨by decide,
    @claim_C5_fingerprint_roundtrip optsPubOnly instPubOnlyCX (by decide)⟩

/-- Claim C6: on a validly constructed instance, `verifyFingerprint`
never throws, whatever the candidate value (non-string, string without
the `'z'` prefix, undecodable base58 payload, wrong multicodec header, or
mismatched key bytes): it returns `{valid: true}` (no error) or
`{valid: false, error}`. -/
theorem claim_C6_verifyFingerprint_total {opts : KeyPairOptions}
    {inst : KeyInstance} (h : constructorP5 opts = .ok inst)
    (candidate : JsVal) :
    ∃ r, verifyFingerprint inst candidate = .ok r ∧
      ((r.valid = true ∧ r.error = none) ∨
        (r.valid = false ∧ r.error.isSome = true)) := by
  obtain ⟨pub, bytes, hpub, hempty, hz, hdec, hm, hlen, hinst, hpriv⟩ :=
    ctor_ok_elim h
  subst hinst
  cases candidate with
  | str s =>
    rw [verifyFingerprint]
    by_cases hzs : strHead? s = some 'z'
    · rw [if_neg (by simp [hzs])]
      cases hd : b58decode (strTail s) with
      | none => exact ⟨_, rfl, .inr ⟨rfl, rfl⟩⟩
      | some fingerprintBuffer =>
        rw [publicKeyBufferE_eq
          (by rw [mkInstance_publicKeyMultibase]; exact hempty)
          (by rw [mkInstance_publicKeyMultibase]; exact hdec)]
        simp only
        by_cases hc : (jsIndexEq fingerprintBuffer 0 0xed &&
            jsIndexEq fingerprintBuffer 1 0x01 &&
            isEqualBuffer (bytes.drop 2) (fingerprintBuffer.drop 2)) = true
        · rw [if_pos hc]; exact ⟨_, rfl, .inl ⟨rfl, rfl⟩⟩
        · rw [if_neg hc]; exact ⟨_, rfl, .inr ⟨rfl, rfl⟩⟩
    · rw [if_pos (by simp [hzs])]
      exact ⟨_, rfl, .inr ⟨rfl, rfl⟩⟩
  | undef => exact ⟨_, rfl, .inr ⟨rfl, rfl⟩⟩
  | jsnull => exact ⟨_, rfl, .inr ⟨rfl, rfl⟩⟩
  | num n => exact ⟨_, rfl, .inr ⟨rfl, rfl⟩⟩

/-- Witness for C6 at a concrete instance and a numeric candidate. -/
theorem claim_C6_witness :
    constructorP5 optsPubOnly = .ok instPubOnlyCX ∧
      ∃ r, verifyFingerprint instPubOnlyCX (.num 123) = .ok r ∧
        ((r.valid = true ∧ r.error = none) ∨
          (r.valid = false ∧ r.error.isSome = true)) :=
  ⟨by decide,
    @claim_C6_verifyFingerprint_total optsPubOnly instPubOnlyCX (by decide)
      (.num 123)⟩

/-- Membership in an `if`-guarded singleton forces the element and the
guard. -/
theorem mem_if_singleton {α : Type} {c : Prop} [Decidable c] {x a : α}
    (h : a ∈ (if c then [x] else [])) : a = x ∧ c := by
  split at h
  · exact ⟨List.mem_singleton.mp h, by assumption⟩
  · exact absurd h (List.not_mem_nil a)

/-- Characterization of the entries of a successful export: each entry is
one of the seven possible properties, with its guard. -/
theorem mem_exportKey {inst : KeyInstance} {flags : ExportFlags}
    {r : List (String × JsVal)} {k : String} {v : JsVal}
    (h : exportKey inst flags = .ok r) (hkv : (k, v) ∈ r) :
    (k = "id" ∧ v = jsovToVal inst.id) ∨
    (k = "type" ∧ v = .str inst.type) ∨
    (k = "@context" ∧ v = .str SUITE_CONTEXT ∧ flags.includeContext = true) ∨
    (k = "controller" ∧ v = .str (inst.controller.getD "") ∧
      jsStrTruthy inst.controller = true) ∨
    (k = "publicKeyMultibase" ∧ v = .str inst.publicKeyMultibase ∧
      flags.publicKey = true) ∨
    (k = "privateKeyMultibase" ∧ v = jsovToVal inst.privateKeyMultibase ∧
      flags.privateKey = true) ∨
    (k = "revoked" ∧ v = .str (inst.revoked.getD "") ∧
      jsStrTruthy inst.revoked = true) := by
  unfold exportKey at h
  split at h
  · exact absurd h (by simp)
  · injection h with h
    subst h
    simp only [List.mem_append] at hkv
    rcases hkv with (((((hkv | hkv) | hkv) | hkv) | hkv) | hkv)
    · simp only [List.mem_cons, List.not_mem_nil, or_false,
        Prod.mk.injEq] at hkv
      rcases hkv with ⟨hk, hv⟩ | ⟨hk, hv⟩
      · exact .inl ⟨hk, hv⟩
      · exact .inr (.inl ⟨hk, hv⟩)
    · obtain ⟨heq, hc⟩ := mem_if_singleton hkv
      simp only [Prod.mk.injEq] at heq
      exact .inr (.inr (.inl ⟨heq.1, heq.2, hc⟩))
    · obtain ⟨heq, hc⟩ := mem_if_singleton hkv
      simp only [Prod.mk.injEq] at heq
      exact .inr (.inr (.inr (.inl ⟨heq.1, heq.2, hc⟩)))
    · obtain ⟨heq, hc⟩ := mem_if_singleton hkv
      simp only [Prod.mk.injEq] at heq
      exact .inr (.inr (.inr (.inr (.inl ⟨heq.1, heq.2, hc⟩))))
    · obtain ⟨heq, hc⟩ := mem_if_singleton hkv
      simp only [Prod.mk.injEq] at heq
      exact .inr (.inr (.inr (.inr (.inr (.inl ⟨heq.1, heq.2, hc⟩)))))
    · obtain ⟨heq, hc⟩ := mem_if_singleton hkv
      simp only [Prod.mk.injEq] at heq
      exact .inr (.inr (.inr (.inr (.inr (.inr ⟨heq.1, heq.2, hc⟩)))))

/-- `jsovToVal` never produces `null`. -/
theorem jsovToVal_ne_jsnull (o : Option String) : jsovToVal o ≠ .jsnull := by
  cases o <;> simp [jsovToVal]

/-- `jsovToVal` produces `undefined` exactly for an absent value. -/
theorem jsovToVal_eq_undef {o : Option String} :
    jsovToVal o = .undef ↔ o = none := by
  cases o <;> simp [jsovToVal]

/-- Counterexample to claim C7 as stated: on a validly constructed
public-only instance with no `id`, `export({publicKey: true,
privateKey: true})` does not throw, yet the returned record maps the keys
`id` and `privateKeyMultibase` to `undefined` — absent optional fields
are not always omitted entirely. -/
theorem claim_C7_counterexample :
    constructorP5 optsPubOnly = .ok instPubOnlyCX ∧
      exportKey instPubOnlyCX ⟨true, true, false⟩ = .ok exportRecCX ∧
      ("id", JsVal.undef) ∈ exportRecCX ∧
      ("privateKeyMultibase", JsVal.undef) ∈ exportRecCX :=
  ⟨by decide, by decide, by decide, by decide⟩

/-- Claim C7 (amended): whenever `export` does not throw, no key of the
returned record is mapped to `null`; a key is mapped to `undefined` only
when it is `id` with the id unset, or `privateKeyMultibase` with the
`privateKey` flag set on an instance holding no private key string —
while unset `controller` and `revoked` (and `@context` without its flag)
are omitted entirely. -/
theorem claim_C7_amended_export_fields {inst : KeyInstance}
    {flags : ExportFlags} {r : List (String × JsVal)}
    (h : exportKey inst flags = .ok r) :
    (∀ kv : String × JsVal, kv ∈ r → kv.2 ≠ JsVal.jsnull) ∧
    (∀ kv : String × JsVal, kv ∈ r → kv.2 = JsVal.undef →
      (kv.1 = "id" ∧ inst.id = none) ∨
      (kv.1 = "privateKeyMultibase" ∧ flags.privateKey = true ∧
        inst.privateKeyMultibase = none)) ∧
    (jsStrTruthy inst.controller = false → ∀ w, ("controller", w) ∉ r) ∧
    (jsStrTruthy inst.revoked = false → ∀ w, ("revoked", w) ∉ r) ∧
    (flags.includeContext = false → ∀ w, ("@context", w) ∉ r) := by
  refine ⟨?_, ?_, ?_, ?_, ?_⟩
  · rintro ⟨k, v⟩ hkv
    rcases mem_exportKey h hkv with ⟨hk, hv⟩ | ⟨hk, hv⟩ | ⟨hk, hv, hc⟩ |
      ⟨hk, hv, hc⟩ | ⟨hk, hv, hc⟩ | ⟨hk, hv, hc⟩ | ⟨hk, hv, hc⟩ <;>
      subst hv
    · exact jsovToVal_ne_jsnull inst.id
    all_goals first
      | exact jsovToVal_ne_jsnull inst.privateKeyMultibase
      | simp
  · rintro ⟨k, v⟩ hkv hundef
    rcases mem_exportKey h hkv with ⟨hk, hv⟩ | ⟨hk, hv⟩ | ⟨hk, hv, hc⟩ |
      ⟨hk, hv, hc⟩ | ⟨hk, hv, hc⟩ | ⟨hk, hv, hc⟩ | ⟨hk, hv, hc⟩ <;>
      subst hv <;> simp only at hundef
    · exact .inl ⟨hk, jsovToVal_eq_undef.mp hundef⟩
    all_goals first
      | exact .inr ⟨hk, hc, jsovToVal_eq_undef.mp hundef⟩
      | cases hundef
  · intro hct w hmem
    rcases mem_exportKey h hmem with ⟨hk, _⟩ | ⟨hk, _⟩ | ⟨hk, _, _⟩ |
      ⟨hk, _, hc⟩ | ⟨hk, _, _⟩ | ⟨hk, _, _⟩ | ⟨hk, _, _⟩ <;>
      first
        | exact absurd hk (by decide)
        | exact absurd hc (by rw [hct]; decide)
  · intro hrv w hmem
    rcases mem_exportKey h hmem with ⟨hk, _⟩ | ⟨hk, _⟩ | ⟨hk, _, _⟩ |
      ⟨hk, _, _⟩ | ⟨hk, _, _⟩ | ⟨hk, _, _⟩ | ⟨hk, _, hc⟩ <;>
      first
        | exact absurd hk (by decide)
        | exact absurd hc (by rw [hrv]; decide)
  · intro hic w hmem
    rcases mem_exportKey h hmem with ⟨hk, _⟩ | ⟨hk, _⟩ | ⟨hk, _, hc⟩ |
      ⟨hk, _, _⟩ | ⟨hk, _, _⟩ | ⟨hk, _, _⟩ | ⟨hk, _, _⟩ <;>
      first
        | exact absurd hk (by decide)
        | exact absurd hc (by rw [hic]; decide)

/-- Witness for the amended C7 at a concrete export. -/
theorem claim_C7_witness :
    exportKey instPubOnlyCX ⟨true, true, false⟩ = .ok exportRecCX ∧
      (("id" = "id" ∧ instPubOnlyCX.id = none) ∨
        ("id" = "privateKeyMultibase" ∧ true = true ∧
          instPubOnlyCX.privateKeyMultibase = none)) :=
  ⟨by decide,
    (@claim_C7_amended_export_fields instPubOnlyCX ⟨true, true, false⟩
        exportRecCX (by decide)).2.1 ("id", JsVal.undef) (by decide) rfl⟩

/-- Counterexample to claim C8 as stated: on a validly constructed
public-only instance, `signer()` of the current implementation
(`src/unnamed/part_005`) succeeds — it returns a signer object (whose
captured private-key buffer is `undefined`) instead of failing at the
time `signer()` is invoked. -/
theorem claim_C8_counterexample :
    constructorP5 optsPubOnly = .ok instPubOnlyCX ∧
      signerCallP5 instPubOnlyCX = .ok (none, none) :=
  ⟨by decide, by decide⟩

/-- Claim C8 (amended): on a validly constructed `PublicOnly` instance,
the current implementation's `signer()` returns a signer object without
error, and it is the returned `sign` function that fails — with
`'A private key is not available for signing.'` — when invoked; the older
`src/lib/Ed25519VerificationKey2020.js` version instead throws
synchronously (`'No private key to sign with.'`) at `signer()` time. -/
theorem claim_C8_amended_signer_deferred {opts : KeyPairOptions}
    {inst : KeyInstance} (P : EdPrimitive) (data : Bytes)
    (_h : constructorP5 opts = .ok inst)
    (hpo : inst.privateKeyMultibase = none) :
    signerCallP5 inst = .ok (none, inst.id) ∧
      signSignerClosure P none data =
        .error (.error "A private key is not available for signing.") ∧
      signerCallLib inst = .error (.error "No private key to sign with.") := by
  have hbuf : privateKeyBufferE inst = .ok none := by
    unfold privateKeyBufferE
    rw [hpo]
  refine ⟨?_, rfl, ?_⟩
  · unfold signerCallP5
    rw [hbuf]
  · unfold signerCallLib
    rw [hbuf]

/-- Witness for the amended C8 at a concrete public-only instance. -/
theorem claim_C8_witness :
    signerCallP5 instPubOnlyCX = .ok (none, instPubOnlyCX.id) ∧
      signSignerClosure P0 none [1, 2, 3] =
        .error (.error "A private key is not available for signing.") ∧
      signerCallLib instPubOnlyCX =
        .error (.error "No private key to sign with.") :=
  @claim_C8_amended_signer_deferred optsPubOnly instPubOnlyCX P0 [1, 2, 3]
    (by decide) rfl

/-- Claim C10: the two multibase strings are stored verbatim by the
constructor, `fingerprint()` returns the stored public string unchanged,
and the strings emitted by `export` are the stored ones — no operation
re-encodes or normalizes them (all operations are embedded as pure
functions of the instance, mirroring method bodies that never assign to
the stored fields). -/
theorem claim_C10_verbatim_strings {opts : KeyPairOptions}
    {inst : KeyInstance} (h : constructorP5 opts = .ok inst)
    (flags : ExportFlags) (r : List (String × JsVal))
    (hr : exportKey inst flags = .ok r) (w1 w2 : JsVal)
    (h1 : ("publicKeyMultibase", w1) ∈ r)
    (h2 : ("privateKeyMultibase", w2) ∈ r) :
    opts.publicKeyMultibase = some inst.publicKeyMultibase ∧
      inst.privateKeyMultibase = opts.privateKeyMultibase ∧
      fingerprint inst = inst.publicKeyMultibase ∧
      w1 = .str inst.publicKeyMultibase ∧
      w2 = jsovToVal inst.privateKeyMultibase := by
  obtain ⟨pub, bytes, hpub, hempty, hz, hdec, hm, hlen, hinst, hpriv⟩ :=
    ctor_ok_elim h
  refine ⟨?_, ?_, rfl, ?_, ?_⟩
  · rw [hinst, mkInstance_publicKeyMultibase, hpub]
  · rw [hinst, mkInstance_privateKeyMultibase]
  · rcases mem_exportKey hr h1 with ⟨hk, hv⟩ | ⟨hk, hv⟩ | ⟨hk, hv, _⟩ |
      ⟨hk, hv, _⟩ | ⟨hk, hv, _⟩ | ⟨hk, hv, _⟩ | ⟨hk, hv, _⟩ <;>
      first
        | exact hv
        | exact absurd hk (by decide)
  · rcases mem_exportKey hr h2 with ⟨hk, hv⟩ | ⟨hk, hv⟩ | ⟨hk, hv, _⟩ |
      ⟨hk, hv, _⟩ | ⟨hk, hv, _⟩ | ⟨hk, hv, _⟩ | ⟨hk, hv, _⟩ <;>
      first
        | exact hv
        | exact absurd hk (by decide)

/-- Witness for C10 at a concrete instance and export. -/
theorem claim_C10_witness :
    optsPubOnly.publicKeyMultibase = some instPubOnlyCX.publicKeyMultibase ∧
      instPubOnlyCX.privateKeyMultibase = optsPubOnly.privateKeyMultibase ∧
      fingerprint instPubOnlyCX = instPubOnlyCX.publicKeyMultibase ∧
      JsVal.str pubCX = .str instPubOnlyCX.publicKeyMultibase ∧
      JsVal.undef = jsovToVal instPubOnlyCX.privateKeyMultibase :=
  @claim_C10_verbatim_strings optsPubOnly instPubOnlyCX (by decide)
    ⟨true, true, false⟩ exportRecCX (by decide) (.str pubCX) .undef
    (by decide) (by decide)

/-- A passing private-argument check on a present, nonempty string means
exactly that its multicodec header validated. -/
theorem checkPrivArg_some_ok {priv : String} (hne : priv.isEmpty = false)
    (h : checkPrivArg (some priv) = .ok ()) :
    isValidKeyHeader priv MULTICODEC_ED25519_PRIV_HEADER = .ok true := by
  unfold checkPrivArg at h
  rw [if_pos (by simp [jsStrTruthy, hne])] at h
  split at h
  · exact absurd h (by simp)
  · exact absurd h (by simp)
  · rename_i hv
    exact hv

/-- Conversely, a validated header makes the private-argument check pass,
whatever the decoded payload length. -/
theorem checkPrivArg_some_of {priv : String} (hne : priv.isEmpty = false)
    (hv : isValidKeyHeader priv MULTICODEC_ED25519_PRIV_HEADER = .ok true) :
    checkPrivArg (some priv) = .ok () := by
  unfold checkPrivArg
  rw [if_pos (by simp [jsStrTruthy, hne])]
  simp only [Option.getD_some]
  rw [hv]

/-- Introduction rule for a successful construction: a truthy public
string with valid header and 32-byte payload, plus a passing private
check, make the constructor return the assembled instance. -/
theorem ctor_ok_intro {opts : KeyPairOptions} {pub : String} {pbytes : Bytes}
    (hpub : opts.publicKeyMultibase = some pub)
    (hpe : pub.isEmpty = false)
    (hpv : isValidKeyHeader pub MULTICODEC_ED25519_PUB_HEADER = .ok true)
    (hdec : b58decode (strTail pub) = some pbytes)
    (hlen : (pbytes.drop 2).length = 32)
    (hcp : checkPrivArg opts.privateKeyMultibase = .ok ()) :
    constructorP5 opts = .ok (mkInstance opts pub) := by
  have hbuf : publicKeyBufferE (mkInstance opts pub) =
      .ok (some (pbytes.drop 2)) :=
    publicKeyBufferE_eq
      (by rw [mkInstance_publicKeyMultibase]; exact hpe)
      (by rw [mkInstance_publicKeyMultibase]; exact hdec)
  unfold constructorP5
  split
  · rename_i heq
    rw [heq] at hpub
    cases hpub
  · rename_i p heq
    rw [hpub] at heq
    injection heq with heq
    subst heq
    rw [if_neg (by simp [hpe])]
    split
    · rename_i e heq
      rw [hpv] at heq
      cases heq
    · rename_i heq
      rw [hpv] at heq
      cases heq
    · split
      · rename_i e heq
        rw [hcp] at heq
        cases heq
      · simp only
        split
        · rename_i e heq
          rw [hbuf] at heq
          cases heq
        · rename_i heq
          rw [hbuf] at heq
          cases heq
        · rename_i bytes heq
          rw [hbuf] at heq
          injection heq with heq
          injection heq with heq
          subst heq
          rw [if_pos hlen]

/-- Counterexample to claim C2 as stated: construction succeeds although
the decoded private payload after the 2-byte header is 10 bytes, not 64
— the constructor checks only the private multicodec header, never the
length. -/
theorem claim_C2_counterexample :
    (constructorP5 optsBadPriv).isOk = true ∧
      b58decode (strTail privShortCX) =
        some (MULTICODEC_ED25519_PRIV_HEADER ++ List.replicate 10 1) ∧
      ((MULTICODEC_ED25519_PRIV_HEADER ++ List.replicate 10 1).drop 2).length
        = 10 :=
  ⟨by decide, by decide, by decide⟩

/-- Claim C2 (amended): with a valid public key input and a present,
nonempty `privateKeyMultibase`, construction succeeds exactly when the
private string's multibase prefix and multicodec header validate — the
64-byte length of the decoded private payload is not checked. -/
theorem claim_C2_amended_header_only_validation {opts : KeyPairOptions}
    {pub priv : String} {pbytes : Bytes}
    (hpub : opts.publicKeyMultibase = some pub)
    (hpe : pub.isEmpty = false)
    (hpv : isValidKeyHeader pub MULTICODEC_ED25519_PUB_HEADER = .ok true)
    (hdec : b58decode (strTail pub) = some pbytes)
    (hlen : (pbytes.drop 2).length = 32)
    (hpriv : opts.privateKeyMultibase = some priv)
    (hprivne : priv.isEmpty = false) :
    (constructorP5 opts).isOk = true ↔
      isValidKeyHeader priv MULTICODEC_ED25519_PRIV_HEADER = .ok true := by
  constructor
  · intro hok
    cases hc : constructorP5 opts with
    | error e => rw [hc] at hok; exact absurd hok (by simp [Except.isOk, Except.toBool])
    | ok inst =>
      obtain ⟨_, _, _, _, _, _, _, _, _, hcp⟩ := ctor_ok_elim hc
      rw [hpriv] at hcp
      exact checkPrivArg_some_ok hprivne hcp
  · intro hv
    rw [ctor_ok_intro hpub hpe hpv hdec hlen
      (by rw [hpriv]; exact checkPrivArg_some_of hprivne hv)]
    rfl

/-- Witness for the amended C2 at the concrete short-payload input. -/
theorem claim_C2_witness :
    (constructorP5 optsBadPriv).isOk = true ↔
      isValidKeyHeader privShortCX MULTICODEC_ED25519_PRIV_HEADER = .ok true :=
  @claim_C2_amended_header_only_validation optsBadPriv pubCX privShortCX
    (MULTICODEC_ED25519_PUB_HEADER ++ List.replicate 32 7)
    (by decide) (by decide) (by decide) (by decide) (by decide) (by decide)
    (by decide)

/-- Stripping the SPKI DER framing recovers exactly the framed bytes. -/
theorem getKeyMaterial_pub (x : Bytes) :
    getKeyMaterial (derPublicKeyHeader ++ x) = .ok x := by
  simp [getKeyMaterial, derPublicKeyHeader, List.isPrefixOf]

/-- Claim C3: whenever the node backend's `generateKeyPairFromSeed`
succeeds (the external derivation returning 32-byte public keys), the
returned secret key is exactly `seed || publicKey`: 64 bytes whose first
32 bytes are the seed and whose last 32 bytes are the returned public
key. -/
theorem claim_C3_secret_key_layout {P : EdPrimitive} {seed : Bytes}
    {kp : KeyPairBytes}
    (hP : ∀ s : Bytes, s.length = 32 → (P.derivePub s).length = 32)
    (hok : generateKeyPairFromSeed P seed = .ok kp) :
    kp.secretKey = seed ++ kp.publicKey ∧ kp.secretKey.length = 64 ∧
      kp.secretKey.take 32 = seed ∧ kp.secretKey.drop 32 = kp.publicKey := by
  unfold generateKeyPairFromSeed at hok
  split at hok
  · exact absurd hok (by simp)
  · rename_i der hder
    unfold privateKeyDerEncodeFromSeed assertKeyBytes at hder
    split at hder
    · exact absurd hder (by simp)
    · rename_i u hu
      split at hu
      · rename_i hl
        injection hu with hu
        injection hder with hder
        subst hder
        split at hok
        · exact absurd hok (by simp)
        · rename_i pk hpk
          injection hok with hok
          subst hok
          rw [nodeSpkiExportOfPkcs8, List.drop_left, getKeyMaterial_pub] at hpk
          injection hpk with hpk
          subst hpk
          refine ⟨rfl, ?_, ?_, ?_⟩
          · simp [List.length_append, hl, hP seed hl]
          · show (seed ++ P.derivePub seed).take 32 = seed
            rw [← hl]
            exact List.take_left seed _
          · show (seed ++ P.derivePub seed).drop 32 = P.derivePub seed
            rw [← hl]
            exact List.drop_left seed _
      · exact absurd hu (by simp)

/-- Witness for C3 with a conforming concrete primitive and seed. -/
theorem claim_C3_witness :
    (List.replicate 32 5 ++ List.replicate 32 0 : Bytes) =
        List.replicate 32 5 ++ List.replicate 32 0 ∧
      (List.replicate 32 5 ++ List.replicate 32 0 : Bytes).length = 64 ∧
      (List.replicate 32 5 ++ List.replicate 32 0 : Bytes).take 32 =
        List.replicate 32 5 ∧
      (List.replicate 32 5 ++ List.replicate 32 0 : Bytes).drop 32 =
        List.replicate 32 0 :=
  @claim_C3_secret_key_layout P0 (List.replicate 32 5)
    ⟨List.replicate 32 0, List.replicate 32 5 ++ List.replicate 32 0⟩
    (fun s _ => by simp [P0]) (by decide)

/-- Claim C4: the node backend's `sign` uses only the first 32 bytes (the
seed) of the 64-byte secret key — two secret keys agreeing on their first
32 bytes produce identical signatures on every message, whatever their
trailing 32 bytes. -/
theorem claim_C4_sign_depends_on_seed_only {P : EdPrimitive}
    {sk1 sk2 : Bytes} (data : Bytes)
    (h1 : sk1.length = 64) (h2 : sk2.length = 64)
    (hseed : sk1.take 32 = sk2.take 32) :
    nodeSign P sk1 data = nodeSign P sk2 data := by
  unfold nodeSign privateKeyDerEncodeFromPrivateKey assertKeyBytes
  rw [h1, h2]
  simp [List.drop_left, hseed]

/-- Witness for C4 with two secret keys differing in their second half. -/
theorem claim_C4_witness :
    nodeSign P0 (List.replicate 64 3) [1] =
      nodeSign P0 (List.replicate 32 3 ++ List.replicate 32 8) [1] :=
  @claim_C4_sign_depends_on_seed_only P0 (List.replicate 64 3)
    (List.replicate 32 3 ++ List.replicate 32 8) [1]
    (by decide) (by decide) (by decide)

/-- Claim C1: over any conforming Ed25519 primitive (the external
`node:crypto` and `@stablelib/ed25519` collaborators, abstracted at the
spec §4.2 boundary), the node backend and the browser backend produce
identical `publicKey`/`secretKey` pairs from every 32-byte seed, produce
byte-identical signatures from every 64-byte secret key and message, and
each backend's `verify` accepts those signatures. -/
theorem claim_C1_cross_backend_equivalence {P : EdPrimitive}
    (hP : P.Conforming) {seed sk : Bytes} (data : Bytes)
    (hseed : seed.length = 32) (hsk : sk.length = 64) :
    generateKeyPairFromSeed P seed = .ok (browserGenerateKeyPairFromSeed P seed) ∧
      nodeSign P sk data = .ok (browserSign P sk data) ∧
      nodeVerify P (P.derivePub (sk.take 32)) data (browserSign P sk data) =
        .ok true ∧
      browserVerify P (P.derivePub (sk.take 32)) data (browserSign P sk data) =
        true := by
  obtain ⟨hPlen, hPver⟩ := hP
  have htk : (sk.take 32).length = 32 := by simp [List.length_take, hsk]
  refine ⟨?_, ?_, ?_, ?_⟩
  · unfold generateKeyPairFromSeed privateKeyDerEncodeFromSeed assertKeyBytes
      browserGenerateKeyPairFromSeed
    rw [hseed]
    simp [nodeSpkiExportOfPkcs8, List.drop_left, getKeyMaterial_pub]
  · unfold nodeSign privateKeyDerEncodeFromPrivateKey assertKeyBytes browserSign
    rw [hsk]
    simp [List.drop_left]
  · unfold nodeVerify publicKeyDerEncode assertKeyBytes browserSign
    rw [hPlen _ htk]
    simp [List.drop_left, hPver (sk.take 32) data]
  · exact hPver (sk.take 32) data

/-- Witness for C1 with a conforming concrete primitive. -/
theorem claim_C1_witness :
    generateKeyPairFromSeed P0 (List.replicate 32 4) =
        .ok (browserGenerateKeyPairFromSeed P0 (List.replicate 32 4)) ∧
      nodeSign P0 (List.replicate 64 6) [1, 2] =
        .ok (browserSign P0 (List.replicate 64 6) [1, 2]) ∧
      nodeVerify P0 (P0.derivePub ((List.replicate 64 6 : Bytes).take 32))
          [1, 2] (browserSign P0 (List.replicate 64 6) [1, 2]) = .ok true ∧
      browserVerify P0 (P0.derivePub ((List.replicate 64 6 : Bytes).take 32))
          [1, 2] (browserSign P0 (List.replicate 64 6) [1, 2]) = true :=
  @claim_C1_cross_backend_equivalence P0
    ⟨fun s _ => by simp [P0], fun s d => rfl⟩
    (List.replicate 32 4) (List.replicate 64 6) [1, 2] (by decide) (by decide)

/-- Claim C9: when the options object passed to `generate` itself carries
`publicKeyMultibase` / `privateKeyMultibase` properties, the object
spread applies them after the freshly generated encodings, so the
returned instance stores the caller-supplied strings instead of the
encodings of the generated key material. -/
theorem claim_C9_options_override {P : EdPrimitive} {seed : Option Bytes}
    {entropy : Bytes} {opts : KeyPairOptions} {s t : String}
    {inst : KeyInstance}
    (hs : opts.publicKeyMultibase = some s)
    (ht : opts.privateKeyMultibase = some t)
    (hok : generateP5 P seed entropy opts = .ok inst) :
    inst.publicKeyMultibase = s ∧ inst.privateKeyMultibase = some t := by
  unfold generateP5 at hok
  split at hok
  · exact absurd hok (by simp)
  · rename_i keyObject hko
    obtain ⟨pub, bytes, hpub, _, _, _, _, _, hinst, _⟩ := ctor_ok_elim hok
    simp only [spreadMerge] at hpub
    rw [hs] at hpub
    simp only [Option.some_orElse] at hpub
    injection hpub with hpub
    subst hpub
    constructor
    · rw [hinst, mkInstance_publicKeyMultibase]
    · rw [hinst, mkInstance_privateKeyMultibase]
      simp only [spreadMerge]
      rw [ht]
      simp [Option.some_orElse]

set_option maxRecDepth 8000 in
/-- Witness for C9: `generate` with caller-supplied multibase strings
returns an instance storing those strings, not the generated encodings. -/
theorem claim_C9_witness :
    instOverrideCX.publicKeyMultibase = pubCX ∧
      instOverrideCX.privateKeyMultibase = some privOkCX :=
  @claim_C9_options_override P0 none (List.replicate 32 9) optsOverride
    pubCX privOkCX instOverrideCX rfl rfl (by decide)

end EdVK2020
